import Mathlib

/-!
Verification development for the plank-challenge repository.

The core under verification is the plank-position classifier
(`lib/poseDetection.ts`, the front-facing variant, plus the earlier
side-view variant reproduced in `PRODUCT_SPEC.md`) and the temporal
stability gate (`hooks/usePoseDetection.ts`).

Modelling conventions:
* JavaScript numbers are modelled as exact rationals (`ℚ`) in the
  classifier and visibility gate, whose arithmetic is `+, -, *, /, abs,
  max` on decimal literals, and as reals (`ℝ`) in the angle primitive
  `calculateAngle`, which uses the transcendental two-argument
  arctangent (modelled by `Complex.arg`).
* A landmark array is a list of optional landmarks: a slot can be
  missing (array shorter than 33, or a hole), matching the defensive
  `landmarks[idx] && ...` truthiness tests in the source.
* Functions that can throw a `TypeError` (dereferencing `.y` of an
  `undefined` slot) return `Option`: `none` models the thrown exception.
-/

namespace PlankChallenge

/-- A MediaPipe `NormalizedLandmark`, generic in the number type.
Fields `x`, `y`, `z` are image coordinates; `visibility` is the
per-point confidence in `[0,1]`. -/
structure LandmarkG (α : Type) where
  x : α
  y : α
  z : α
  visibility : α
deriving DecidableEq

/-- Landmarks consumed by the (rational-arithmetic) classifier. -/
abbrev Landmark := LandmarkG ℚ

/-- A landmark frame: an array of (possibly missing) landmarks,
indexed by the MediaPipe body-part enumeration. -/
abbrev LandmarkFrame := List (Option Landmark)

/-- Array access `landmarks[idx]`: `none` both for a hole and for an
out-of-bounds index (JavaScript yields `undefined` in both cases). -/
def slot (landmarks : LandmarkFrame) (idx : ℕ) : Option Landmark :=
  landmarks.getD idx none

/-- The result record of the classifier (`PlankDetectionResult` in
`lib/poseDetection.ts`). -/
structure PlankDetectionResult where
  isPlank : Bool
  confidence : ℚ
  feedback : List String
  landmarks : Option LandmarkFrame
deriving DecidableEq

/-- Truthiness-guarded visibility test used throughout the source:
`landmarks[idx] && landmarks[idx].visibility && landmarks[idx].visibility >= minVisibility`.
A missing slot is not visible; `visibility = 0` is falsy in JavaScript,
hence also not visible. -/
def landmarkVisibleAt (landmarks : LandmarkFrame) (idx : ℕ) (minVisibility : ℚ) : Bool :=
  match slot landmarks idx with
  | none => false
  | some lm => decide (lm.visibility ≠ 0) && decide (minVisibility ≤ lm.visibility)

/-- `criticalIndices` of `areLandmarksVisible` (front-facing variant):
nose, both shoulders, both hips. -/
def criticalIndices : List ℕ := [0, 11, 12, 23, 24]

/-- `optionalIndices` of `areLandmarksVisible` (front-facing variant):
both elbows, both knees, both ankles. -/
def optionalIndices : List ℕ := [13, 14, 25, 26, 27, 28]

/-- `areLandmarksVisible` from `lib/poseDetection.ts` (front-facing
variant): every critical landmark must clear `minVisibility`
(default 0.3 at every call site), and at least 4 of the 6 optional
landmarks must clear it as well. -/
def areLandmarksVisible (landmarks : LandmarkFrame) (minVisibility : ℚ) : Bool :=
  let criticalVisible :=
    criticalIndices.all (fun idx => landmarkVisibleAt landmarks idx minVisibility)
  if !criticalVisible then false
  else decide (4 ≤ (optionalIndices.filter
    (fun idx => landmarkVisibleAt landmarks idx minVisibility)).length)

/-- The feedback string built on the no-person short-circuit path of
`detectPlankPosition` (lines 202-222): lists which of face, shoulders,
hips are missing, falling back to a generic message.  The per-part
tests (`!nose || !nose.visibility || nose.visibility < 0.3`) are the
negation of the truthiness-guarded visibility test at threshold 0.3. -/
def noPersonMessage (landmarks : LandmarkFrame) : String :=
  let missingParts : List String :=
    (if !landmarkVisibleAt landmarks 0 0.3 then ["face"] else []) ++
    (if !landmarkVisibleAt landmarks 11 0.3 || !landmarkVisibleAt landmarks 12 0.3 then
      ["shoulders"] else []) ++
    (if !landmarkVisibleAt landmarks 23 0.3 || !landmarkVisibleAt landmarks 24 0.3 then
      ["hips"] else [])
  if missingParts.length > 0 then
    "Cannot see: " ++ String.intercalate ", " missingParts ++ ". Move back to show full body."
  else
    "Cannot see enough body parts. Move back to show full body."

/-!
The eight form checks of the front-facing `detectPlankPosition`
(lines 232-340) transcribed one check per definition.  Each check
transforms the running state (confidence, feedback list); confidence
starts at 100 and the feedback list empty.  `classifyChecks` below
composes them in the source's order.
-/

/-- Check 1 (lines 250-269): CHECK BODY IS HORIZONTAL.  The levelness
is the larger of the shoulder-to-hip and hip-to-knee average vertical
gaps. -/
def bodyLevelCheck (lS rS lH rH lK rK : Landmark) (s : ℚ × List String) : ℚ × List String :=
  let shoulderY := (lS.y + rS.y) / 2
  let hipY := (lH.y + rH.y) / 2
  let kneeY := (lK.y + rK.y) / 2
  let bodyLevelness := max |shoulderY - hipY| |hipY - kneeY|
  if bodyLevelness > 0.15 then (s.1 - 30, s.2 ++ ["Keep your body straight and level"])
  else if bodyLevelness > 0.10 then (s.1 - 15, s.2 ++ ["Body alignment could be better"])
  else s

/-- Check 2 (lines 271-280): CHECK HEAD POSITION.  Note the second
branch subtracts 10 points without appending any feedback, exactly as
in the source. -/
def headPositionCheck (nose lS : Landmark) (s : ℚ × List String) : ℚ × List String :=
  let noseShoulderDiff := |nose.y - lS.y|
  if noseShoulderDiff > 0.15 then (s.1 - 20, s.2 ++ ["Lift your head - look at the camera"])
  else if noseShoulderDiff > 0.10 then (s.1 - 10, s.2)
  else s

/-- Check 3 (lines 282-290): CHECK ARMS ARE EXTENDED. -/
def armsExtendedCheck (lS rS lE rE : Landmark) (s : ℚ × List String) : ℚ × List String :=
  let leftArmExtended : Bool := decide (lE.y > lS.y - 0.05)
  let rightArmExtended : Bool := decide (rE.y > rS.y - 0.05)
  if !leftArmExtended || !rightArmExtended then
    (s.1 - 25, s.2 ++ ["Extend your arms toward the camera"])
  else s

/-- Check 4 (lines 292-299): CHECK ELBOW ALIGNMENT. -/
def elbowLevelCheck (lE rE : Landmark) (s : ℚ × List String) : ℚ × List String :=
  let elbowLevelness := |lE.y - rE.y|
  if elbowLevelness > 0.1 then (s.1 - 15, s.2 ++ ["Keep elbows level"])
  else s

/-- Check 5 (lines 301-307): CHECK SHOULDER WIDTH. -/
def shoulderWidthCheck (lS rS : Landmark) (s : ℚ × List String) : ℚ × List String :=
  let shoulderWidth := |lS.x - rS.x|
  if shoulderWidth < 0.15 then (s.1 - 20, s.2 ++ ["Position camera to see both shoulders"])
  else s

/-- Check 6 (lines 309-318): CHECK LEGS ARE STRAIGHT.  As in check 2,
the second branch subtracts 10 points without appending feedback. -/
def legStraightnessCheck (lH rH lK rK lA rA : Landmark) (s : ℚ × List String) :
    ℚ × List String :=
  let hipY := (lH.y + rH.y) / 2
  let kneeY := (lK.y + rK.y) / 2
  let ankleY := (lA.y + rA.y) / 2
  let legStraightness := |kneeY - hipY| + |kneeY - ankleY|
  if legStraightness > 0.15 then (s.1 - 25, s.2 ++ ["Straighten your legs"])
  else if legStraightness > 0.10 then (s.1 - 10, s.2)
  else s

/-- Check 7 (lines 320-330): CHECK BODY ISN'T TOO HIGH OR LOW. -/
def framePositionCheck (lS rS lH rH lK rK : Landmark) (s : ℚ × List String) :
    ℚ × List String :=
  let shoulderY := (lS.y + rS.y) / 2
  let hipY := (lH.y + rH.y) / 2
  let kneeY := (lK.y + rK.y) / 2
  let avgBodyY := (shoulderY + hipY + kneeY) / 3
  if avgBodyY < 0.3 then
    (s.1 - 15, s.2 ++ ["Move camera higher or position yourself lower in frame"])
  else if avgBodyY > 0.8 then
    (s.1 - 15, s.2 ++ ["Move camera lower or position yourself higher in frame"])
  else s

/-- Check 8 (lines 332-340): CHECK SYMMETRY. -/
def symmetryCheck (lS rS lH rH lK rK : Landmark) (s : ℚ × List String) : ℚ × List String :=
  let leftRightSymmetry := |lS.y - rS.y| + |lH.y - rH.y| + |lK.y - rK.y|
  if leftRightSymmetry > 0.15 then
    (s.1 - 15, s.2 ++ ["Balance your weight evenly on both sides"])
  else s

/-- The eight checks composed in source order, starting from
confidence 100 and no feedback (lines 232-233). -/
def classifyChecks (nose lS rS lE rE lH rH lK rK lA rA : Landmark) : ℚ × List String :=
  symmetryCheck lS rS lH rH lK rK
    (framePositionCheck lS rS lH rH lK rK
      (legStraightnessCheck lH rH lK rK lA rA
        (shoulderWidthCheck lS rS
          (elbowLevelCheck lE rE
            (armsExtendedCheck lS rS lE rE
              (headPositionCheck nose lS
                (bodyLevelCheck lS rS lH rH lK rK (100, []))))))))

/-- The full-classification path of `detectPlankPosition` (lines
236-340): fetch the key landmarks and run the checks.  Every one of the
eleven bound slots is dereferenced (`.x` or `.y`) unconditionally by
the checks, so a missing slot throws a `TypeError` (modelled by
`none`).  The wrists (slots 15 and 16) are fetched in the source but
never dereferenced, so their absence cannot throw and they are not
bound here. -/
def classifyGated (landmarks : LandmarkFrame) : Option (ℚ × List String) := do
  let nose ← slot landmarks 0
  let lS ← slot landmarks 11
  let rS ← slot landmarks 12
  let lE ← slot landmarks 13
  let rE ← slot landmarks 14
  let lH ← slot landmarks 23
  let rH ← slot landmarks 24
  let lK ← slot landmarks 25
  let rK ← slot landmarks 26
  let lA ← slot landmarks 27
  let rA ← slot landmarks 28
  pure (classifyChecks nose lS rS lE rE lH rH lK rK lA rA)

/-- `detectPlankPosition` from `lib/poseDetection.ts` (front-facing
variant, lines 199-361).  If the visibility gate fails, short-circuit
to the no-person result.  Otherwise run the checks, decide the verdict
`isPlank = confidence >= 55 && feedback.length <= 3` on the
pre-affirmation feedback list, prepend the tiered affirmation when
passing, and clamp the confidence at 0. -/
def detectPlankPosition (landmarks : LandmarkFrame) : Option PlankDetectionResult :=
  if areLandmarksVisible landmarks 0.3 = false then
    some { isPlank := false, confidence := 0,
           feedback := [noPersonMessage landmarks], landmarks := some landmarks }
  else
    match classifyGated landmarks with
    | none => none
    | some (confidence, feedback) =>
      let isPlank : Bool := decide (55 ≤ confidence) && decide (feedback.length ≤ 3)
      let feedback2 :=
        if isPlank && decide (85 ≤ confidence) then "Perfect plank form! 💪" :: feedback
        else if isPlank && decide (70 ≤ confidence) then
          "Good plank position - keep it up!" :: feedback
        else if isPlank then "Plank detected - maintain form" :: feedback
        else feedback
      some { isPlank := isPlank, confidence := max 0 confidence,
             feedback := feedback2, landmarks := some landmarks }

/-- The ten form-correction strings the front-facing checks can append
(lines 264-338). -/
def formCorrectionMessages : List String :=
  ["Keep your body straight and level",
   "Body alignment could be better",
   "Lift your head - look at the camera",
   "Extend your arms toward the camera",
   "Keep elbows level",
   "Position camera to see both shoulders",
   "Straighten your legs",
   "Move camera higher or position yourself lower in frame",
   "Move camera lower or position yourself higher in frame",
   "Balance your weight evenly on both sides"]

/-!
The deduction branches of the checks: for claim C7 we count, with one
definition per check mirroring the same conditions, how many times the
checks subtract from the running confidence.
-/

/-- Deductions applied by check 1 (both branches subtract). -/
def bodyLevelDed (lS rS lH rH lK rK : Landmark) : ℕ :=
  let shoulderY := (lS.y + rS.y) / 2
  let hipY := (lH.y + rH.y) / 2
  let kneeY := (lK.y + rK.y) / 2
  let bodyLevelness := max |shoulderY - hipY| |hipY - kneeY|
  if bodyLevelness > 0.15 then 1 else if bodyLevelness > 0.10 then 1 else 0

/-- Deductions applied by check 2 (both branches subtract, though the
second appends no feedback). -/
def headPositionDed (nose lS : Landmark) : ℕ :=
  let noseShoulderDiff := |nose.y - lS.y|
  if noseShoulderDiff > 0.15 then 1 else if noseShoulderDiff > 0.10 then 1 else 0

/-- Deductions applied by check 3. -/
def armsExtendedDed (lS rS lE rE : Landmark) : ℕ :=
  let leftArmExtended : Bool := decide (lE.y > lS.y - 0.05)
  let rightArmExtended : Bool := decide (rE.y > rS.y - 0.05)
  if !leftArmExtended || !rightArmExtended then 1 else 0

/-- Deductions applied by check 4. -/
def elbowLevelDed (lE rE : Landmark) : ℕ :=
  let elbowLevelness := |lE.y - rE.y|
  if elbowLevelness > 0.1 then 1 else 0

/-- Deductions applied by check 5. -/
def shoulderWidthDed (lS rS : Landmark) : ℕ :=
  let shoulderWidth := |lS.x - rS.x|
  if shoulderWidth < 0.15 then 1 else 0

/-- Deductions applied by check 6 (both branches subtract, though the
second appends no feedback). -/
def legStraightnessDed (lH rH lK rK lA rA : Landmark) : ℕ :=
  let hipY := (lH.y + rH.y) / 2
  let kneeY := (lK.y + rK.y) / 2
  let ankleY := (lA.y + rA.y) / 2
  let legStraightness := |kneeY - hipY| + |kneeY - ankleY|
  if legStraightness > 0.15 then 1 else if legStraightness > 0.10 then 1 else 0

/-- Deductions applied by check 7. -/
def framePositionDed (lS rS lH rH lK rK : Landmark) : ℕ :=
  let shoulderY := (lS.y + rS.y) / 2
  let hipY := (lH.y + rH.y) / 2
  let kneeY := (lK.y + rK.y) / 2
  let avgBodyY := (shoulderY + hipY + kneeY) / 3
  if avgBodyY < 0.3 then 1 else if avgBodyY > 0.8 then 1 else 0

/-- Deductions applied by check 8. -/
def symmetryDed (lS rS lH rH lK rK : Landmark) : ℕ :=
  let leftRightSymmetry := |lS.y - rS.y| + |lH.y - rH.y| + |lK.y - rK.y|
  if leftRightSymmetry > 0.15 then 1 else 0

/-- Total number of confidence deductions the checks apply to a gated
frame. -/
def deductionCount (nose lS rS lE rE lH rH lK rK lA rA : Landmark) : ℕ :=
  bodyLevelDed lS rS lH rH lK rK + headPositionDed nose lS +
    armsExtendedDed lS rS lE rE + elbowLevelDed lE rE + shoulderWidthDed lS rS +
    legStraightnessDed lH rH lK rK lA rA + framePositionDed lS rS lH rH lK rK +
    symmetryDed lS rS lH rH lK rK

/-! ## Stability gate (`hooks/usePoseDetection.ts`) -/

/-- The persistent debounce state of `usePoseDetection`: the refs
`plankDetectedCountRef`, `plankLostCountRef`, `isPlankActiveRef`
(lines 40-42), all initialized to `0` / `false`. -/
structure GateState where
  plankDetectedCount : ℕ
  plankLostCount : ℕ
  isPlankActive : Bool
deriving DecidableEq

/-- Initial gate state, also the state restored by `reset`
(lines 174-180). -/
def initialGateState : GateState := ⟨0, 0, false⟩

/-- What `detectPose` observes on one sampled frame: a passing
classification, a failing classification, or no person found by the
estimator (`result.landmarks` empty, lines 147-166). -/
inductive FrameObs
  | pass
  | failFrame
  | noPerson
deriving DecidableEq

/-- The two edge-triggered callbacks of the gate. -/
inductive GateEvent
  | plankDetected
  | plankLost
deriving DecidableEq

/-- One step of the debounce logic in `detectPose`
(`hooks/usePoseDetection.ts` lines 121-166), given the per-frame
observation: on a pass, increment the detected counter, zero the lost
counter, and fire `onPlankDetected` when inactive and the counter has
reached `stabilityFrames` (default 5); on a fail, increment the lost
counter, zero the detected counter, and fire `onPlankLost` when active
and the counter has reached `gracePeriodFrames` (default 10).  The
no-person branch (lines 147-166) duplicates the failing branch's
counter and event logic. -/
def stepGate (stabilityFrames gracePeriodFrames : ℕ) (s : GateState) :
    FrameObs → GateState × List GateEvent
  | .pass =>
    let detected := s.plankDetectedCount + 1
    if !s.isPlankActive && decide (stabilityFrames ≤ detected) then
      (⟨detected, 0, true⟩, [.plankDetected])
    else
      (⟨detected, 0, s.isPlankActive⟩, [])
  | .failFrame =>
    let lost := s.plankLostCount + 1
    if s.isPlankActive && decide (gracePeriodFrames ≤ lost) then
      (⟨0, lost, false⟩, [.plankLost])
    else
      (⟨0, lost, s.isPlankActive⟩, [])
  | .noPerson =>
    let lost := s.plankLostCount + 1
    if s.isPlankActive && decide (gracePeriodFrames ≤ lost) then
      (⟨0, lost, false⟩, [.plankLost])
    else
      (⟨0, lost, s.isPlankActive⟩, [])

/-- Run the gate over a stream of observations, collecting every event
fired, in order. -/
def runGate (stabilityFrames gracePeriodFrames : ℕ) (s : GateState) :
    List FrameObs → GateState × List GateEvent
  | [] => (s, [])
  | o :: rest =>
    let step := stepGate stabilityFrames gracePeriodFrames s o
    let run := runGate stabilityFrames gracePeriodFrames step.1 rest
    (run.1, step.2 ++ run.2)

/-- Default `stabilityFrames` of the `usePoseDetection` hook
(line 31). -/
def defaultStabilityFrames : ℕ := 5

/-- Default `gracePeriodFrames` of the `usePoseDetection` hook
(line 32). -/
def defaultGracePeriodFrames : ℕ := 10

/-- `gracePeriodFrames` passed by the `VideoRecorder` component, the
hook's sole production caller (`VideoRecorder.tsx`, the
`usePoseDetection({... gracePeriodFrames: 30 })` call). -/
def videoRecorderGracePeriodFrames : ℕ := 30


/-! ## Concrete frames used as witnesses -/

/-- Nose landmark of the perfect-form witness frame. -/
def pNose : Landmark := ⟨0.3, 0.42, 0, 1⟩

/-- Left shoulder of the perfect-form witness frame. -/
def pLS : Landmark := ⟨0.3, 0.5, 0, 1⟩

/-- Right shoulder of the perfect-form witness frame. -/
def pRS : Landmark := ⟨0.7, 0.5, 0, 1⟩

/-- Left elbow of the perfect-form witness frame. -/
def pLE : Landmark := ⟨0.28, 0.52, 0, 1⟩

/-- Right elbow of the perfect-form witness frame. -/
def pRE : Landmark := ⟨0.72, 0.52, 0, 1⟩

/-- Left wrist of the perfect-form witness frame. -/
def pLW : Landmark := ⟨0.26, 0.6, 0, 1⟩

/-- Right wrist of the perfect-form witness frame. -/
def pRW : Landmark := ⟨0.74, 0.6, 0, 1⟩

/-- Left hip of the perfect-form witness frame. -/
def pLH : Landmark := ⟨0.35, 0.5, 0, 1⟩

/-- Right hip of the perfect-form witness frame. -/
def pRH : Landmark := ⟨0.65, 0.5, 0, 1⟩

/-- Left knee of the perfect-form witness frame. -/
def pLK : Landmark := ⟨0.4, 0.5, 0, 1⟩

/-- Right knee of the perfect-form witness frame. -/
def pRK : Landmark := ⟨0.6, 0.5, 0, 1⟩

/-- Left ankle of the perfect-form witness frame. -/
def pLA : Landmark := ⟨0.45, 0.5, 0, 1⟩

/-- Right ankle of the perfect-form witness frame. -/
def pRA : Landmark := ⟨0.55, 0.5, 0, 1⟩

/-- A perfect-form frame: body level and centered, head up, arms
extended, shoulders apart, legs straight, symmetric; all slots the
classifier needs are present with visibility 1. -/
def perfectFrame : LandmarkFrame :=
  [some pNose,
   none, none, none, none, none, none, none, none, none, none,
   some pLS, some pRS, some pLE, some pRE, some pLW, some pRW,
   none, none, none, none, none, none,
   some pLH, some pRH, some pLK, some pRK, some pLA, some pRA]

/-- The perfect-form frame with both ankle slots absent (a 26-entry
array): the visibility gate still passes (elbows and knees give 4 of
the 6 optional landmarks) but the form checks dereference the missing
ankles. -/
def missingAnkleFrame : LandmarkFrame :=
  [some pNose,
   none, none, none, none, none, none, none, none, none, none,
   some pLS, some pRS, some pLE, some pRE, some pLW, some pRW,
   none, none, none, none, none, none,
   some pLH, some pRH, some pLK, some pRK]

/-- The classifier's output on the perfect-form frame. -/
def perfectResult : PlankDetectionResult :=
  { isPlank := true, confidence := 100,
    feedback := ["Perfect plank form! 💪"], landmarks := some perfectFrame }

/-! ## Further witness material -/

/-- Nose landmark of the head-dip witness frame: vertical distance to
the left shoulder is 0.12, in the silent-penalty band (0.10, 0.15]. -/
def hNose : Landmark := ⟨0.3, 0.38, 0, 1⟩

/-- The perfect-form frame with the nose dipped so that only check 2's
silent 10-point deduction fires. -/
def headDipFrame : LandmarkFrame :=
  [some hNose,
   none, none, none, none, none, none, none, none, none, none,
   some pLS, some pRS, some pLE, some pRE, some pLW, some pRW,
   none, none, none, none, none, none,
   some pLH, some pRH, some pLK, some pRK, some pLA, some pRA]


/-!
## The angle primitive and the side-view classifier variant

`calculateAngle` (`lib/poseDetection.ts` lines 50-63) uses the
transcendental `Math.atan2`, so it is modelled over ℝ.  The earlier
side-view variant of the classifier — whose full source is reproduced
in the repository's `PRODUCT_SPEC.md` (its `lib/poseDetection.ts`
listing) and which is the only variant that evaluates the
shoulder-elbow-wrist angle — is embedded here over ℝ as well.
-/

/-- Landmarks with real coordinates, for the angle primitive and the
side-view classifier. -/
abbrev RealLandmark := LandmarkG ℝ

/-- A frame of real-coordinate landmarks. -/
abbrev RealLandmarkFrame := List (Option RealLandmark)

/-- Array access on a real-coordinate frame. -/
def slotR (landmarks : RealLandmarkFrame) (idx : ℕ) : Option RealLandmark :=
  landmarks.getD idx none

/-- JavaScript `Math.atan2 y x`: the polar angle of the point
`(x, y)`, in `(-π, π]`, with `atan2 0 0 = 0` — exactly `Complex.arg`
of `x + y·i`. -/
noncomputable def atan2 (y x : ℝ) : ℝ := Complex.arg ⟨x, y⟩

/-- `calculateAngle` from `lib/poseDetection.ts` (lines 50-63): the
difference of the two rays' polar angles, converted to degrees, made
absolute, and reflected below 360° so the result is the non-reflex
angle at vertex `b`. -/
noncomputable def calculateAngle (a b c : RealLandmark) : ℝ :=
  let radians := atan2 (c.y - b.y) (c.x - b.x) - atan2 (a.y - b.y) (a.x - b.x)
  let angle := |radians * 180 / Real.pi|
  if angle > 180 then 360 - angle else angle

/-- Result record of the side-view classifier (real confidence). -/
structure PlankDetectionResultR where
  isPlank : Bool
  confidence : ℝ
  feedback : List String
  landmarks : Option RealLandmarkFrame

/-- `areLandmarksVisible`, side-view variant (from the
`PRODUCT_SPEC.md` listing): nose, left shoulder, left hip, left knee
and left ankle must all clear `minVisibility`. -/
noncomputable def areLandmarksVisibleSideView (landmarks : RealLandmarkFrame)
    (minVisibility : ℝ) : Bool :=
  [0, 11, 23, 25, 27].all fun idx =>
    match slotR landmarks idx with
    | none => false
    | some lm => decide (lm.visibility ≠ 0) && decide (minVisibility ≤ lm.visibility)

/-- Side-view check 1: CHECK BODY ALIGNMENT — the shoulder-hip-ankle
angle, with a wide 35-point band and a narrower 20-point band. -/
noncomputable def svAlignmentCheck (lS lH lA : RealLandmark) (s : ℝ × List String) :
    ℝ × List String :=
  let bodyAngle := calculateAngle lS lH lA
  if bodyAngle < 150 then (s.1 - 35, s.2 ++ ["Lift your hips higher"])
  else if bodyAngle > 195 then (s.1 - 35, s.2 ++ ["Lower your hips - avoid sagging"])
  else if bodyAngle < 160 ∨ bodyAngle > 185 then
    (s.1 - 20, s.2 ++ ["Adjust hips for straighter alignment"])
  else s

/-- Side-view check 2: CHECK LEGS ARE STRAIGHT — the hip-knee-ankle
angle; the second branch subtracts 10 silently. -/
noncomputable def svLegCheck (lH lK lA : RealLandmark) (s : ℝ × List String) :
    ℝ × List String :=
  let kneeAngle := calculateAngle lH lK lA
  if kneeAngle < 155 then (s.1 - 25, s.2 ++ ["Straighten your legs"])
  else if kneeAngle < 165 then (s.1 - 10, s.2)
  else s

/-- Side-view check 3, first part: CHECK ARM POSITION — the
shoulder-elbow-wrist angle must land in the forearm-plank band
(`< 130`) or the straight-arm band (`> 145`). -/
noncomputable def svArmCheck (lS lE lW : RealLandmark) (s : ℝ × List String) :
    ℝ × List String :=
  let elbowAngle := calculateAngle lS lE lW
  let isForearmPlank := elbowAngle < 130
  let isStraightArmPlank := elbowAngle > 145
  if ¬ isForearmPlank ∧ ¬ isStraightArmPlank then
    (s.1 - 20, s.2 ++ ["Choose forearm or straight-arm plank"])
  else s

/-- Side-view check 3, second part: the elbow roughly under the
shoulder. -/
noncomputable def svElbowUnderCheck (lS lE : RealLandmark) (s : ℝ × List String) :
    ℝ × List String :=
  let elbowShoulderDistance := |lE.x - lS.x|
  if elbowShoulderDistance > 0.15 then (s.1 - 15, s.2 ++ ["Position arms under shoulders"])
  else s

/-- Side-view check 4: CHECK HEAD/NECK POSITION. -/
noncomputable def svHeadCheck (nose lS : RealLandmark) (s : ℝ × List String) :
    ℝ × List String :=
  let shoulderNoseDistance := |lS.y - nose.y|
  if shoulderNoseDistance > 0.15 then (s.1 - 10, s.2 ++ ["Keep head in neutral position"])
  else s

/-- Side-view check 5: CHECK BODY IS HORIZONTAL. -/
noncomputable def svLevelCheck (lS lH : RealLandmark) (s : ℝ × List String) :
    ℝ × List String :=
  let shoulderHipLevelness := |lS.y - lH.y|
  if shoulderHipLevelness > 0.15 then (s.1 - 15, s.2 ++ ["Keep body parallel to ground"])
  else s

/-- Side-view check 6: CHECK BODY POSITIONING IN FRAME. -/
noncomputable def svCenterCheck (lS lH lA : RealLandmark) (s : ℝ × List String) :
    ℝ × List String :=
  let avgBodyY := (lS.y + lH.y + lA.y) / 3
  if avgBodyY < 0.25 ∨ avgBodyY > 0.75 then (s.1 - 10, s.2 ++ ["Center yourself in frame"])
  else s

/-- The side-view checks composed in source order, from confidence 100
and empty feedback. -/
noncomputable def sideViewChecks (nose lS lE lW lH lK lA : RealLandmark) :
    ℝ × List String :=
  svCenterCheck lS lH lA
    (svLevelCheck lS lH
      (svHeadCheck nose lS
        (svElbowUnderCheck lS lE
          (svArmCheck lS lE lW
            (svLegCheck lH lK lA
              (svAlignmentCheck lS lH lA (100, [])))))))

/-- `detectPlankPosition`, side-view variant (from the
`PRODUCT_SPEC.md` listing): gate, left-side landmarks, the six checks,
the verdict rule and the tiered affirmation.  All seven bound slots
are dereferenced unconditionally; `none` models the `TypeError` on a
missing slot. -/
noncomputable def detectPlankPositionSideView (landmarks : RealLandmarkFrame) :
    Option PlankDetectionResultR :=
  if areLandmarksVisibleSideView landmarks 0.3 = false then
    some { isPlank := false, confidence := 0,
           feedback := ["Position yourself sideways to camera. Show full body from head to feet."],
           landmarks := some landmarks }
  else
    match (do
      let nose ← slotR landmarks 0
      let lS ← slotR landmarks 11
      let lE ← slotR landmarks 13
      let lW ← slotR landmarks 15
      let lH ← slotR landmarks 23
      let lK ← slotR landmarks 25
      let lA ← slotR landmarks 27
      pure (sideViewChecks nose lS lE lW lH lK lA) : Option (ℝ × List String)) with
    | none => none
    | some (confidence, feedback) =>
      let isPlank : Bool := decide (55 ≤ confidence) && decide (feedback.length ≤ 3)
      let feedback2 :=
        if isPlank && decide (85 ≤ confidence) then "Perfect plank form! 💪" :: feedback
        else if isPlank && decide (70 ≤ confidence) then
          "Good plank position - keep it up!" :: feedback
        else if isPlank then "Plank detected - maintain form" :: feedback
        else feedback
      some { isPlank := isPlank, confidence := max 0 confidence,
             feedback := feedback2, landmarks := some landmarks }

/-- Nose of the side-view witness configuration. -/
noncomputable def svN : RealLandmark := ⟨0.1, 0.45, 0, 1⟩

/-- Left shoulder of the side-view witness configuration. -/
noncomputable def svS : RealLandmark := ⟨0.2, 0.5, 0, 1⟩

/-- Left elbow of the side-view witness configuration (directly below
the shoulder). -/
noncomputable def svE : RealLandmark := ⟨0.2, 0.6, 0, 1⟩

/-- Left wrist of the side-view witness configuration (at the
shoulder, so the shoulder-elbow-wrist angle is 0). -/
noncomputable def svW : RealLandmark := ⟨0.2, 0.5, 0, 1⟩

/-- Left hip of the side-view witness configuration. -/
noncomputable def svH : RealLandmark := ⟨0.5, 0.5, 0, 1⟩

/-- Left knee of the side-view witness configuration. -/
noncomputable def svK : RealLandmark := ⟨0.65, 0.5, 0, 1⟩

/-- Left ankle of the side-view witness configuration. -/
noncomputable def svA : RealLandmark := ⟨0.8, 0.5, 0, 1⟩

end PlankChallenge

namespace PlankChallenge

/-! ## Bounds on the checks -/

lemma bodyLevelCheck_fst_le (lS rS lH rH lK rK : Landmark) (s : ℚ × List String) :
    (bodyLevelCheck lS rS lH rH lK rK s).1 ≤ s.1 := by
  simp only [bodyLevelCheck]; split_ifs <;> simp

lemma headPositionCheck_fst_le (nose lS : Landmark) (s : ℚ × List String) :
    (headPositionCheck nose lS s).1 ≤ s.1 := by
  simp only [headPositionCheck]; split_ifs <;> simp

lemma armsExtendedCheck_fst_le (lS rS lE rE : Landmark) (s : ℚ × List String) :
    (armsExtendedCheck lS rS lE rE s).1 ≤ s.1 := by
  simp only [armsExtendedCheck]; split_ifs <;> simp

lemma elbowLevelCheck_fst_le (lE rE : Landmark) (s : ℚ × List String) :
    (elbowLevelCheck lE rE s).1 ≤ s.1 := by
  simp only [elbowLevelCheck]; split_ifs <;> simp

lemma shoulderWidthCheck_fst_le (lS rS : Landmark) (s : ℚ × List String) :
    (shoulderWidthCheck lS rS s).1 ≤ s.1 := by
  simp only [shoulderWidthCheck]; split_ifs <;> simp

lemma legStraightnessCheck_fst_le (lH rH lK rK lA rA : Landmark) (s : ℚ × List String) :
    (legStraightnessCheck lH rH lK rK lA rA s).1 ≤ s.1 := by
  simp only [legStraightnessCheck]; split_ifs <;> simp

lemma framePositionCheck_fst_le (lS rS lH rH lK rK : Landmark) (s : ℚ × List String) :
    (framePositionCheck lS rS lH rH lK rK s).1 ≤ s.1 := by
  simp only [framePositionCheck]; split_ifs <;> simp

lemma symmetryCheck_fst_le (lS rS lH rH lK rK : Landmark) (s : ℚ × List String) :
    (symmetryCheck lS rS lH rH lK rK s).1 ≤ s.1 := by
  simp only [symmetryCheck]; split_ifs <;> simp

/-- The running confidence only decreases from its starting value 100. -/
lemma classifyChecks_fst_le (nose lS rS lE rE lH rH lK rK lA rA : Landmark) :
    (classifyChecks nose lS rS lE rE lH rH lK rK lA rA).1 ≤ 100 := by
  unfold classifyChecks
  calc (symmetryCheck lS rS lH rH lK rK _).1 ≤ _ := symmetryCheck_fst_le ..
    _ ≤ _ := framePositionCheck_fst_le ..
    _ ≤ _ := legStraightnessCheck_fst_le ..
    _ ≤ _ := shoulderWidthCheck_fst_le ..
    _ ≤ _ := elbowLevelCheck_fst_le ..
    _ ≤ _ := armsExtendedCheck_fst_le ..
    _ ≤ _ := headPositionCheck_fst_le ..
    _ ≤ _ := bodyLevelCheck_fst_le ..
    _ ≤ (100 : ℚ) := by norm_num

lemma bodyLevelCheck_len_le (lS rS lH rH lK rK : Landmark) (s : ℚ × List String) :
    (bodyLevelCheck lS rS lH rH lK rK s).2.length ≤
      s.2.length + bodyLevelDed lS rS lH rH lK rK := by
  simp only [bodyLevelCheck, bodyLevelDed]; split_ifs <;> simp

lemma headPositionCheck_len_le (nose lS : Landmark) (s : ℚ × List String) :
    (headPositionCheck nose lS s).2.length ≤ s.2.length + headPositionDed nose lS := by
  simp only [headPositionCheck, headPositionDed]; split_ifs <;> simp

lemma armsExtendedCheck_len_le (lS rS lE rE : Landmark) (s : ℚ × List String) :
    (armsExtendedCheck lS rS lE rE s).2.length ≤
      s.2.length + armsExtendedDed lS rS lE rE := by
  simp only [armsExtendedCheck, armsExtendedDed]; split_ifs <;> simp

lemma elbowLevelCheck_len_le (lE rE : Landmark) (s : ℚ × List String) :
    (elbowLevelCheck lE rE s).2.length ≤ s.2.length + elbowLevelDed lE rE := by
  simp only [elbowLevelCheck, elbowLevelDed]; split_ifs <;> simp

lemma shoulderWidthCheck_len_le (lS rS : Landmark) (s : ℚ × List String) :
    (shoulderWidthCheck lS rS s).2.length ≤ s.2.length + shoulderWidthDed lS rS := by
  simp only [shoulderWidthCheck, shoulderWidthDed]; split_ifs <;> simp

lemma legStraightnessCheck_len_le (lH rH lK rK lA rA : Landmark) (s : ℚ × List String) :
    (legStraightnessCheck lH rH lK rK lA rA s).2.length ≤
      s.2.length + legStraightnessDed lH rH lK rK lA rA := by
  simp only [legStraightnessCheck, legStraightnessDed]; split_ifs <;> simp

lemma framePositionCheck_len_le (lS rS lH rH lK rK : Landmark) (s : ℚ × List String) :
    (framePositionCheck lS rS lH rH lK rK s).2.length ≤
      s.2.length + framePositionDed lS rS lH rH lK rK := by
  simp only [framePositionCheck, framePositionDed]; split_ifs <;> simp

lemma symmetryCheck_len_le (lS rS lH rH lK rK : Landmark) (s : ℚ × List String) :
    (symmetryCheck lS rS lH rH lK rK s).2.length ≤
      s.2.length + symmetryDed lS rS lH rH lK rK := by
  simp only [symmetryCheck, symmetryDed]; split_ifs <;> simp

/-- Every feedback message comes with a deduction, so there are never
more violation messages than deductions. -/
lemma classifyChecks_len_le_ded (nose lS rS lE rE lH rH lK rK lA rA : Landmark) :
    (classifyChecks nose lS rS lE rE lH rH lK rK lA rA).2.length ≤
      deductionCount nose lS rS lE rE lH rH lK rK lA rA := by
  have h1 := bodyLevelCheck_len_le lS rS lH rH lK rK ((100 : ℚ), ([] : List String))
  have h2 := headPositionCheck_len_le nose lS
    (bodyLevelCheck lS rS lH rH lK rK (100, []))
  have h3 := armsExtendedCheck_len_le lS rS lE rE
    (headPositionCheck nose lS (bodyLevelCheck lS rS lH rH lK rK (100, [])))
  have h4 := elbowLevelCheck_len_le lE rE
    (armsExtendedCheck lS rS lE rE
      (headPositionCheck nose lS (bodyLevelCheck lS rS lH rH lK rK (100, []))))
  have h5 := shoulderWidthCheck_len_le lS rS
    (elbowLevelCheck lE rE
      (armsExtendedCheck lS rS lE rE
        (headPositionCheck nose lS (bodyLevelCheck lS rS lH rH lK rK (100, [])))))
  have h6 := legStraightnessCheck_len_le lH rH lK rK lA rA
    (shoulderWidthCheck lS rS
      (elbowLevelCheck lE rE
        (armsExtendedCheck lS rS lE rE
          (headPositionCheck nose lS (bodyLevelCheck lS rS lH rH lK rK (100, []))))))
  have h7 := framePositionCheck_len_le lS rS lH rH lK rK
    (legStraightnessCheck lH rH lK rK lA rA
      (shoulderWidthCheck lS rS
        (elbowLevelCheck lE rE
          (armsExtendedCheck lS rS lE rE
            (headPositionCheck nose lS (bodyLevelCheck lS rS lH rH lK rK (100, [])))))))
  have h8 := symmetryCheck_len_le lS rS lH rH lK rK
    (framePositionCheck lS rS lH rH lK rK
      (legStraightnessCheck lH rH lK rK lA rA
        (shoulderWidthCheck lS rS
          (elbowLevelCheck lE rE
            (armsExtendedCheck lS rS lE rE
              (headPositionCheck nose lS (bodyLevelCheck lS rS lH rH lK rK (100, []))))))))
  unfold classifyChecks deductionCount
  simp only [List.length_nil] at h1
  omega

/-- Unpack a successful run of the gated checks: each of the eleven
dereferenced slots is present and the pair is `classifyChecks` of the
extracted landmarks. -/
lemma classifyGated_eq_some (f : LandmarkFrame) (c : ℚ) (fb : List String)
    (h : classifyGated f = some (c, fb)) :
    ∃ nose lS rS lE rE lH rH lK rK lA rA : Landmark,
      slot f 0 = some nose ∧ slot f 11 = some lS ∧ slot f 12 = some rS ∧
      slot f 13 = some lE ∧ slot f 14 = some rE ∧ slot f 23 = some lH ∧
      slot f 24 = some rH ∧ slot f 25 = some lK ∧ slot f 26 = some rK ∧
      slot f 27 = some lA ∧ slot f 28 = some rA ∧
      (c, fb) = classifyChecks nose lS rS lE rE lH rH lK rK lA rA := by
  simp only [classifyGated, bind, Option.bind_eq_some, Option.pure_def,
    Option.some.injEq] at h
  obtain ⟨nose, h0, lS, h11, rS, h12, lE, h13, rE, h14, lH, h23, rH, h24,
    lK, h25, rK, h26, lA, h27, rA, h28, hp⟩ := h
  exact ⟨nose, lS, rS, lE, rE, lH, rH, lK, rK, lA, rA,
    h0, h11, h12, h13, h14, h23, h24, h25, h26, h27, h28, hp.symm⟩

lemma classifyGated_perfectFrame_eq :
    classifyGated perfectFrame =
      some (classifyChecks pNose pLS pRS pLE pRE pLH pRH pLK pRK pLA pRA) := rfl

lemma areLandmarksVisible_perfectFrame : areLandmarksVisible perfectFrame 0.3 = true := by
  norm_num [areLandmarksVisible, criticalIndices, optionalIndices, landmarkVisibleAt, slot,
    perfectFrame, pNose, pLS, pRS, pLE, pRE, pLH, pRH, pLK, pRK, pLA, pRA]

lemma bodyLevelCheck_perfect (s : ℚ × List String) :
    bodyLevelCheck pLS pRS pLH pRH pLK pRK s = s := by
  norm_num [bodyLevelCheck, pLS, pRS, pLH, pRH, pLK, pRK, max_def]

lemma headPositionCheck_perfect (s : ℚ × List String) :
    headPositionCheck pNose pLS s = s := by
  norm_num [headPositionCheck, pNose, pLS, abs_of_nonpos, abs_of_nonneg]

lemma armsExtendedCheck_perfect (s : ℚ × List String) :
    armsExtendedCheck pLS pRS pLE pRE s = s := by
  norm_num [armsExtendedCheck, pLS, pRS, pLE, pRE]

lemma elbowLevelCheck_perfect (s : ℚ × List String) :
    elbowLevelCheck pLE pRE s = s := by
  norm_num [elbowLevelCheck, pLE, pRE, abs_of_nonpos, abs_of_nonneg]

lemma shoulderWidthCheck_perfect (s : ℚ × List String) :
    shoulderWidthCheck pLS pRS s = s := by
  norm_num [shoulderWidthCheck, pLS, pRS, abs_of_nonpos, abs_of_nonneg]

lemma legStraightnessCheck_perfect (s : ℚ × List String) :
    legStraightnessCheck pLH pRH pLK pRK pLA pRA s = s := by
  norm_num [legStraightnessCheck, pLH, pRH, pLK, pRK, pLA, pRA]

lemma framePositionCheck_perfect (s : ℚ × List String) :
    framePositionCheck pLS pRS pLH pRH pLK pRK s = s := by
  norm_num [framePositionCheck, pLS, pRS, pLH, pRH, pLK, pRK]

lemma symmetryCheck_perfect (s : ℚ × List String) :
    symmetryCheck pLS pRS pLH pRH pLK pRK s = s := by
  norm_num [symmetryCheck, pLS, pRS, pLH, pRH, pLK, pRK]

lemma classifyChecks_perfectFrame :
    classifyChecks pNose pLS pRS pLE pRE pLH pRH pLK pRK pLA pRA = (100, []) := by
  rw [classifyChecks, bodyLevelCheck_perfect, headPositionCheck_perfect,
    armsExtendedCheck_perfect, elbowLevelCheck_perfect, shoulderWidthCheck_perfect,
    legStraightnessCheck_perfect, framePositionCheck_perfect, symmetryCheck_perfect]

/-- Full evaluation of the classifier on the perfect-form frame. -/
lemma detectPlankPosition_perfectFrame :
    detectPlankPosition perfectFrame = some perfectResult := by
  rw [perfectResult]
  rw [detectPlankPosition, areLandmarksVisible_perfectFrame]
  norm_num [classifyGated_perfectFrame_eq, classifyChecks_perfectFrame]

end PlankChallenge

namespace PlankChallenge

lemma areLandmarksVisible_headDipFrame : areLandmarksVisible headDipFrame 0.3 = true := by
  norm_num [areLandmarksVisible, criticalIndices, optionalIndices, landmarkVisibleAt, slot,
    headDipFrame, hNose, pLS, pRS, pLE, pRE, pLH, pRH, pLK, pRK, pLA, pRA]

lemma headPositionCheck_headDip (s : ℚ × List String) :
    headPositionCheck hNose pLS s = (s.1 - 10, s.2) := by
  norm_num [headPositionCheck, hNose, pLS, abs_of_nonpos, abs_of_nonneg]

lemma classifyChecks_headDipFrame :
    classifyChecks hNose pLS pRS pLE pRE pLH pRH pLK pRK pLA pRA = (90, []) := by
  rw [classifyChecks, bodyLevelCheck_perfect, headPositionCheck_headDip,
    armsExtendedCheck_perfect, elbowLevelCheck_perfect, shoulderWidthCheck_perfect,
    legStraightnessCheck_perfect, framePositionCheck_perfect, symmetryCheck_perfect]
  norm_num

lemma deductionCount_headDipFrame :
    deductionCount hNose pLS pRS pLE pRE pLH pRH pLK pRK pLA pRA = 1 := by
  norm_num [deductionCount, bodyLevelDed, headPositionDed, armsExtendedDed, elbowLevelDed,
    shoulderWidthDed, legStraightnessDed, framePositionDed, symmetryDed,
    hNose, pLS, pRS, pLE, pRE, pLH, pRH, pLK, pRK, pLA, pRA, max_def,
    abs_of_nonpos, abs_of_nonneg]

/-- The eight strings the no-person path can produce. -/
lemma noPersonMessage_mem (f : LandmarkFrame) :
    noPersonMessage f ∈ (["Cannot see: face. Move back to show full body.",
      "Cannot see: shoulders. Move back to show full body.",
      "Cannot see: hips. Move back to show full body.",
      "Cannot see: face, shoulders. Move back to show full body.",
      "Cannot see: face, hips. Move back to show full body.",
      "Cannot see: shoulders, hips. Move back to show full body.",
      "Cannot see: face, shoulders, hips. Move back to show full body.",
      "Cannot see enough body parts. Move back to show full body."] : List String) := by
  simp only [noPersonMessage]
  split_ifs <;> simp_all [String.intercalate, String.intercalate.go]

lemma noPersonMessage_not_form (f : LandmarkFrame) :
    noPersonMessage f ∉ formCorrectionMessages := by
  have h := noPersonMessage_mem f
  simp only [List.mem_cons, List.not_mem_nil, or_false] at h
  rcases h with h | h | h | h | h | h | h | h <;> rw [h] <;> decide

/-! ## Claim theorems -/

/-- C1: for every landmark frame that passes the visibility gate and
yields a result, the verdict satisfies `isPlank = true` exactly when
the final (clamped) confidence is at least 55 and the number of
violation feedback messages counted before the positive affirmation is
prepended is at most 3. -/
theorem C1_verdict_rule (f : LandmarkFrame) (c : ℚ) (fb : List String)
    (r : PlankDetectionResult)
    (hvis : areLandmarksVisible f 0.3 = true)
    (hg : classifyGated f = some (c, fb))
    (hr : detectPlankPosition f = some r) :
    r.isPlank = true ↔ (55 ≤ r.confidence ∧ fb.length ≤ 3) := by
  rw [detectPlankPosition, hvis] at hr
  simp only [Bool.true_eq_false, if_false] at hr
  rw [hg] at hr
  simp only [Option.some.injEq] at hr
  subst hr
  simp only [Bool.and_eq_true, decide_eq_true_eq]
  constructor
  · rintro ⟨h1, h2⟩
    exact ⟨le_max_of_le_right h1, h2⟩
  · rintro ⟨h1, h2⟩
    refine ⟨?_, h2⟩
    rcases le_max_iff.mp h1 with h | h
    · linarith
    · exact h

/-- C1 witness: the perfect-form frame, which passes with confidence
100 and no violation messages. -/
theorem C1_witness :
    perfectResult.isPlank = true ↔
      (55 ≤ perfectResult.confidence ∧ ([] : List String).length ≤ 3) :=
  C1_verdict_rule perfectFrame 100 [] _ areLandmarksVisible_perfectFrame
    (by rw [classifyGated_perfectFrame_eq, classifyChecks_perfectFrame])
    detectPlankPosition_perfectFrame

/-- C4: whenever the visibility gate fails, the classifier
short-circuits to the no-person outcome: not a plank, confidence
exactly 0, and a single feedback message that is textually distinct
from every form-correction message. -/
theorem C4_no_person_outcome (f : LandmarkFrame)
    (hvis : areLandmarksVisible f 0.3 = false) :
    detectPlankPosition f =
      some { isPlank := false, confidence := 0,
             feedback := [noPersonMessage f], landmarks := some f } ∧
    noPersonMessage f ∉ formCorrectionMessages :=
  ⟨by rw [detectPlankPosition, if_pos hvis], noPersonMessage_not_form f⟩

/-- C4 witness: the empty frame. -/
theorem C4_witness :
    detectPlankPosition ([] : LandmarkFrame) =
      some { isPlank := false, confidence := 0,
             feedback := [noPersonMessage []], landmarks := some [] } ∧
    noPersonMessage ([] : LandmarkFrame) ∉ formCorrectionMessages :=
  C4_no_person_outcome [] rfl

/-- C5: the code can in fact throw.  The frame with both ankle slots
absent passes the visibility gate (elbows and knees supply 4 of the 6
optional landmarks) yet `detectPlankPosition` dereferences the missing
ankles in check 1 and throws a `TypeError` (modelled by `none`)
instead of degrading to the no-person outcome. -/
theorem C5_missing_ankle_crash :
    areLandmarksVisible missingAnkleFrame 0.3 = true ∧
    detectPlankPosition missingAnkleFrame = none := by
  have hv : areLandmarksVisible missingAnkleFrame 0.3 = true := by
    norm_num [areLandmarksVisible, criticalIndices, optionalIndices, landmarkVisibleAt, slot,
      missingAnkleFrame, pNose, pLS, pRS, pLE, pRE, pLH, pRH, pLK, pRK]
  refine ⟨hv, ?_⟩
  rw [detectPlankPosition, hv]
  simp only [Bool.true_eq_false, if_false]
  rfl

/-- C6: for every frame that passes the visibility gate and yields a
result, the confidence lies in [0, 100]: it starts at 100, only fixed
penalties are subtracted, and the final value is clamped at 0. -/
theorem C6_confidence_bounds (f : LandmarkFrame) (r : PlankDetectionResult)
    (hvis : areLandmarksVisible f 0.3 = true)
    (hr : detectPlankPosition f = some r) :
    0 ≤ r.confidence ∧ r.confidence ≤ 100 := by
  rw [detectPlankPosition, hvis] at hr
  simp only [Bool.true_eq_false, if_false] at hr
  cases hg : classifyGated f with
  | none => rw [hg] at hr; cases hr
  | some p =>
    obtain ⟨c, fb⟩ := p
    rw [hg] at hr
    simp only [Option.some.injEq] at hr
    subst hr
    simp only
    constructor
    · exact le_max_left 0 c
    · obtain ⟨nose, lS, rS, lE, rE, lH, rH, lK, rK, lA, rA,
        -, -, -, -, -, -, -, -, -, -, -, hp⟩ := classifyGated_eq_some f c fb hg
      refine max_le (by norm_num) ?_
      have hle := classifyChecks_fst_le nose lS rS lE rE lH rH lK rK lA rA
      have hc : c = (classifyChecks nose lS rS lE rE lH rH lK rK lA rA).1 := by rw [← hp]
      linarith

/-- C6 witness: the perfect-form frame. -/
theorem C6_witness :
    0 ≤ perfectResult.confidence ∧ perfectResult.confidence ≤ 100 :=
  C6_confidence_bounds perfectFrame _ areLandmarksVisible_perfectFrame
    detectPlankPosition_perfectFrame

/-- C7 counterexample: on the head-dip frame the checks apply exactly
one deduction (the silent 10-point branch of check 2) but append zero
violation messages, so deductions and messages are not in one-to-one
correspondence. -/
theorem C7_counterexample :
    areLandmarksVisible headDipFrame 0.3 = true ∧
    classifyGated headDipFrame = some (90, []) ∧
    ([] : List String).length ≠
      deductionCount hNose pLS pRS pLE pRE pLH pRH pLK pRK pLA pRA := by
  refine ⟨areLandmarksVisible_headDipFrame, ?_, ?_⟩
  · show classifyGated headDipFrame = some (90, [])
    have : classifyGated headDipFrame =
        some (classifyChecks hNose pLS pRS pLE pRE pLH pRH pLK pRK pLA pRA) := rfl
    rw [this, classifyChecks_headDipFrame]
  · rw [deductionCount_headDipFrame]
    norm_num

/-- C7 amended: every appended violation message is paired with a
deduction in the same check, so the number of violation messages never
exceeds the number of deductions applied (equality can fail because
the head-position and leg-straightness checks each have a branch that
subtracts 10 points without appending a message). -/
theorem C7_messages_le_deductions (nose lS rS lE rE lH rH lK rK lA rA : Landmark) :
    (classifyChecks nose lS rS lE rE lH rH lK rK lA rA).2.length ≤
      deductionCount nose lS rS lE rE lH rH lK rK lA rA :=
  classifyChecks_len_le_ded nose lS rS lE rE lH rH lK rK lA rA

/-- C10: the result of `detectPlankPosition` always carries the input
landmark array back unchanged, on both the no-person short-circuit
path and the full classification path. -/
theorem C10_landmarks_passthrough (f : LandmarkFrame) (r : PlankDetectionResult)
    (hr : detectPlankPosition f = some r) :
    r.landmarks = some f := by
  rw [detectPlankPosition] at hr
  by_cases hv : areLandmarksVisible f 0.3 = false
  · rw [if_pos hv] at hr
    simp only [Option.some.injEq] at hr
    subst hr
    rfl
  · rw [if_neg hv] at hr
    cases hg : classifyGated f with
    | none => rw [hg] at hr; cases hr
    | some p =>
      obtain ⟨c, fb⟩ := p
      rw [hg] at hr
      simp only [Option.some.injEq] at hr
      subst hr
      rfl

/-- C10 witness: the perfect-form frame. -/
theorem C10_witness : perfectResult.landmarks = some perfectFrame :=
  C10_landmarks_passthrough perfectFrame _ detectPlankPosition_perfectFrame

end PlankChallenge

namespace PlankChallenge

/-! ## Stability gate lemmas -/

lemma runGate_append (sf gf : ℕ) (s : GateState) (xs ys : List FrameObs) :
    runGate sf gf s (xs ++ ys) =
      ((runGate sf gf (runGate sf gf s xs).1 ys).1,
       (runGate sf gf s xs).2 ++ (runGate sf gf (runGate sf gf s xs).1 ys).2) := by
  induction xs generalizing s with
  | nil => simp [runGate]
  | cons o rest ih => simp [runGate, ih]

/-- A passing frame seen while inactive, below the stability
threshold, just increments the counter. -/
lemma stepGate_pass_inactive (sf gf p l : ℕ) (h : ¬ sf ≤ p + 1) :
    stepGate sf gf ⟨p, l, false⟩ .pass = (⟨p + 1, 0, false⟩, []) := by
  simp [stepGate, h]

/-- A passing frame seen while active never fires. -/
lemma stepGate_pass_active (sf gf p l : ℕ) :
    stepGate sf gf ⟨p, l, true⟩ .pass = (⟨p + 1, 0, true⟩, []) := by
  simp [stepGate]

/-- A failing (or no-person) frame seen while active, below the grace
threshold, just increments the fail counter. -/
lemma stepGate_fail_active (sf gf p l : ℕ) (o : FrameObs) (ho : o ≠ .pass)
    (h : ¬ gf ≤ l + 1) :
    stepGate sf gf ⟨p, l, true⟩ o = (⟨0, l + 1, true⟩, []) := by
  cases o with
  | pass => exact absurd rfl ho
  | failFrame => simp [stepGate, h]
  | noPerson => simp [stepGate, h]

/-- A failing (or no-person) frame seen while active at the grace
threshold fires `onPlankLost` and deactivates. -/
lemma stepGate_fail_fire (sf gf p l : ℕ) (o : FrameObs) (ho : o ≠ .pass)
    (h : gf ≤ l + 1) :
    stepGate sf gf ⟨p, l, true⟩ o = (⟨0, l + 1, false⟩, [.plankLost]) := by
  cases o with
  | pass => exact absurd rfl ho
  | failFrame => simp [stepGate, h]
  | noPerson => simp [stepGate, h]

/-- A failing (or no-person) frame seen while inactive never fires. -/
lemma stepGate_fail_inactive (sf gf p l : ℕ) (o : FrameObs) (ho : o ≠ .pass) :
    stepGate sf gf ⟨p, l, false⟩ o = (⟨0, l + 1, false⟩, []) := by
  cases o with
  | pass => exact absurd rfl ho
  | failFrame => simp [stepGate]
  | noPerson => simp [stepGate]

/-- Passing frames while inactive and below the threshold accumulate
without firing. -/
lemma runGate_pass_inactive (sf gf : ℕ) (j : ℕ) :
    ∀ p, p + j < sf →
      runGate sf gf ⟨p, 0, false⟩ (List.replicate j .pass) = (⟨p + j, 0, false⟩, []) := by
  induction j with
  | zero => intro p _; simp [runGate]
  | succ n ih =>
    intro p h
    rw [List.replicate_succ, runGate, stepGate_pass_inactive sf gf p 0 (by omega)]
    have heq : p + (n + 1) = (p + 1) + n := by omega
    rw [heq]
    simp [ih (p + 1) (by omega)]

/-- Passing frames while active fire nothing. -/
lemma runGate_pass_active (sf gf : ℕ) (j : ℕ) :
    ∀ p l, runGate sf gf ⟨p, l, true⟩ (List.replicate j .pass) = (⟨p + j, if j = 0 then l else 0, true⟩, []) := by
  induction j with
  | zero => intro p l; simp [runGate]
  | succ n ih =>
    intro p l
    rw [List.replicate_succ, runGate, stepGate_pass_active]
    have heq : p + (n + 1) = (p + 1) + n := by omega
    rw [heq]
    rcases Nat.eq_zero_or_pos n with hn | hn
    · subst hn; simp [runGate]
    · simp [ih (p + 1) 0, Nat.pos_iff_ne_zero.mp hn]

/-- Failing frames while active, within the grace window, accumulate
the fail counter without firing or deactivating. -/
lemma runGate_fail_active_zero (sf gf : ℕ) (obs : List FrameObs)
    (hobs : ∀ o ∈ obs, o ≠ .pass) :
    ∀ l, l + obs.length < gf →
      runGate sf gf ⟨0, l, true⟩ obs = (⟨0, l + obs.length, true⟩, []) := by
  induction obs with
  | nil => intro l _; simp [runGate]
  | cons o rest ih =>
    intro l h
    have ho : o ≠ .pass := hobs o (List.mem_cons_self o rest)
    rw [runGate, stepGate_fail_active sf gf 0 l o ho (by simp at h; omega)]
    have heq : l + (rest.length + 1) = (l + 1) + rest.length := by omega
    simp only [List.length_cons, heq]
    simp [ih (fun o ho => hobs o (List.mem_cons_of_mem _ ho)) (l + 1) (by simp at h; omega)]

/-- Failing frames while inactive fire nothing and leave the gate
inactive. -/
lemma runGate_fail_inactive (sf gf : ℕ) (obs : List FrameObs)
    (hobs : ∀ o ∈ obs, o ≠ .pass) :
    ∀ p l, (runGate sf gf ⟨p, l, false⟩ obs).2 = [] ∧
      (runGate sf gf ⟨p, l, false⟩ obs).1.isPlankActive = false := by
  induction obs with
  | nil => intro p l; simp [runGate]
  | cons o rest ih =>
    intro p l
    have ho : o ≠ .pass := hobs o (List.mem_cons_self o rest)
    rw [runGate, stepGate_fail_inactive sf gf p l o ho]
    simpa using ih (fun o ho => hobs o (List.mem_cons_of_mem _ ho)) 0 (l + 1)

/-- Enough failing frames while active fire `onPlankLost` exactly
once: on the frame where the grace threshold is reached, and never
again afterwards. -/
lemma runGate_fail_lost (sf gf : ℕ) (obs : List FrameObs)
    (hobs : ∀ o ∈ obs, o ≠ .pass) :
    ∀ p l, l < gf → gf ≤ l + obs.length →
      (runGate sf gf ⟨p, l, true⟩ obs).2 = [GateEvent.plankLost] := by
  induction obs with
  | nil => intro p l h1 h2; simp at h2; omega
  | cons o rest ih =>
    intro p l h1 h2
    have ho : o ≠ .pass := hobs o (List.mem_cons_self o rest)
    have hrest : ∀ o ∈ rest, o ≠ FrameObs.pass :=
      fun o ho => hobs o (List.mem_cons_of_mem _ ho)
    by_cases hf : gf ≤ l + 1
    · rw [runGate, stepGate_fail_fire sf gf p l o ho hf]
      simpa using (runGate_fail_inactive sf gf rest hrest 0 (l + 1)).1
    · rw [runGate, stepGate_fail_active sf gf p l o ho hf]
      simpa using ih hrest 0 (l + 1) (by omega) (by simp at h2; omega)

/-- The state reached by failing frames within the grace window,
starting from a freshly active state. -/
lemma runGate_fail_hold (sf gf p : ℕ) (obs : List FrameObs)
    (hobs : ∀ o ∈ obs, o ≠ .pass) (h : obs.length < gf) :
    runGate sf gf ⟨p, 0, true⟩ obs =
      (⟨if obs.length = 0 then p else 0, obs.length, true⟩, []) := by
  cases obs with
  | nil => simp [runGate]
  | cons o rest =>
    have ho : o ≠ .pass := hobs o (List.mem_cons_self o rest)
    rw [runGate, stepGate_fail_active sf gf p 0 o ho (by simp at h; omega)]
    have hrest : ∀ o ∈ rest, o ≠ FrameObs.pass :=
      fun o ho => hobs o (List.mem_cons_of_mem _ ho)
    have := runGate_fail_active_zero sf gf rest hrest 1 (by simp at h; omega)
    simp [this, Nat.add_comm]

end PlankChallenge

namespace PlankChallenge

/-- C2: with the hook's default `stabilityFrames = 5` (and any
stability threshold `S ≥ 1`), feeding `S - 1` consecutive passing
classifications from the inactive initial state fires no event;
feeding `S` consecutive passes fires `onPlankDetected` exactly once,
on the transition edge, and further passing frames fire nothing. -/
theorem C2_acquisition (S G k : ℕ) (hS : 1 ≤ S) :
    defaultStabilityFrames = 5 ∧
    (runGate S G initialGateState (List.replicate (S - 1) .pass)).2 = [] ∧
    (runGate S G initialGateState (List.replicate S .pass)).2 = [GateEvent.plankDetected] ∧
    (runGate S G initialGateState (List.replicate (S + k) .pass)).2 =
      [GateEvent.plankDetected] := by
  obtain ⟨m, rfl⟩ : ∃ m, S = m + 1 := ⟨S - 1, by omega⟩
  have h1 : runGate (m + 1) G initialGateState (List.replicate m .pass) =
      (⟨m, 0, false⟩, []) := by
    simpa using runGate_pass_inactive (m + 1) G m 0 (by omega)
  have hstep : stepGate (m + 1) G ⟨m, 0, false⟩ .pass = (⟨m + 1, 0, true⟩, [.plankDetected]) := by
    simp [stepGate]
  have hfull : runGate (m + 1) G initialGateState (List.replicate (m + 1) .pass) =
      (⟨m + 1, 0, true⟩, [GateEvent.plankDetected]) := by
    rw [List.replicate_add, runGate_append, h1]
    simp [runGate, hstep]
  refine ⟨rfl, ?_, ?_, ?_⟩
  · have hm : (m + 1) - 1 = m := by omega
    rw [hm, h1]
  · exact congrArg Prod.snd hfull
  · rw [List.replicate_add, runGate_append, hfull]
    simp [runGate_pass_active]

/-- C2 witness: at the default thresholds, 4 consecutive passes fire
nothing; 5 fire `onPlankDetected` once; 8 still fire it only once. -/
theorem C2_witness :
    (runGate 5 10 initialGateState (List.replicate 4 .pass)).2 = [] ∧
    (runGate 5 10 initialGateState (List.replicate 5 .pass)).2 = [GateEvent.plankDetected] ∧
    (runGate 5 10 initialGateState (List.replicate 8 .pass)).2 = [GateEvent.plankDetected] := by
  have h := C2_acquisition 5 10 3 (by norm_num)
  simpa using h.2

/-- C3 (amended: the hook's default `gracePeriodFrames` is 10, not 30;
the `VideoRecorder` caller passes 30): while the gate is active,
fewer than `G` consecutive failing classifications (no-person frames
included) fire no event and keep the gate active; one passing frame
within the window resets the fail counter to 0 with the hold
preserved; `G + k` consecutive failing classifications fire
`onPlankLost` exactly once. -/
theorem C3_grace_period (S G p k : ℕ) (obs : List FrameObs) (hG : 1 ≤ G)
    (hobs : ∀ o ∈ obs, o ≠ FrameObs.pass) :
    defaultGracePeriodFrames = 10 ∧
    videoRecorderGracePeriodFrames = 30 ∧
    (obs.length < G →
      (runGate S G ⟨p, 0, true⟩ obs).2 = [] ∧
      (runGate S G ⟨p, 0, true⟩ obs).1.isPlankActive = true) ∧
    (obs.length < G →
      (runGate S G ⟨p, 0, true⟩ (obs ++ [FrameObs.pass])).2 = [] ∧
      (runGate S G ⟨p, 0, true⟩ (obs ++ [FrameObs.pass])).1.plankLostCount = 0 ∧
      (runGate S G ⟨p, 0, true⟩ (obs ++ [FrameObs.pass])).1.isPlankActive = true) ∧
    (obs.length = G + k →
      (runGate S G ⟨p, 0, true⟩ obs).2 = [GateEvent.plankLost]) := by
  refine ⟨rfl, rfl, ?_, ?_, ?_⟩
  · intro h
    rw [runGate_fail_hold S G p obs hobs h]
    exact ⟨rfl, rfl⟩
  · intro h
    rw [runGate_append, runGate_fail_hold S G p obs hobs h]
    simp [runGate, stepGate_pass_active]
  · intro h
    exact runGate_fail_lost S G obs hobs p 0 (by omega) (by omega)

/-- C3 witness: with the production grace period of 30 frames, 32
consecutive no-person frames from a freshly active state fire
`onPlankLost` exactly once. -/
theorem C3_witness :
    (runGate 5 30 ⟨7, 0, true⟩ (List.replicate 32 FrameObs.noPerson)).2 =
      [GateEvent.plankLost] := by
  have h := C3_grace_period 5 30 7 2 (List.replicate 32 .noPerson) (by norm_num)
    (by intro o ho; rw [List.eq_of_mem_replicate ho]; decide)
  exact h.2.2.2.2 (by simp)

/-- C3 counterexample: the hook's default grace period is 10 frames,
not the 30 the claim states (30 is what the `VideoRecorder` caller
passes explicitly). -/
theorem C3_counterexample :
    defaultGracePeriodFrames = 10 ∧ defaultGracePeriodFrames ≠ 30 :=
  ⟨rfl, by decide⟩

end PlankChallenge



namespace PlankChallenge

/-! ## Properties of the angle primitive -/

/-- The polar angles of a nonzero point and its reflection through the
origin differ by exactly π in absolute value. -/
lemma abs_arg_neg_sub_arg (z : ℂ) (hz : z ≠ 0) :
    |Complex.arg (-z) - Complex.arg z| = Real.pi := by
  rcases lt_trichotomy z.im 0 with him | him | him
  · rw [Complex.arg_neg_eq_arg_add_pi_of_im_neg him]
    simp [abs_of_nonneg Real.pi_pos.le]
  · rcases lt_trichotomy z.re 0 with hre | hre | hre
    · have h1 : Complex.arg z = Real.pi := Complex.arg_eq_pi_iff.mpr ⟨hre, him⟩
      have h2 : Complex.arg (-z) = 0 := by
        refine Complex.arg_eq_zero_iff.mpr ⟨?_, ?_⟩
        · simp only [Complex.neg_re]; linarith
        · simp [him]
      rw [h1, h2]
      simp [abs_of_nonneg Real.pi_pos.le]
    · exact absurd (Complex.ext (by simp [hre]) (by simp [him])) hz
    · have h1 : Complex.arg z = 0 := Complex.arg_eq_zero_iff.mpr ⟨hre.le, him⟩
      have h2 : Complex.arg (-z) = Real.pi := by
        refine Complex.arg_eq_pi_iff.mpr ⟨?_, ?_⟩
        · simp only [Complex.neg_re]; linarith
        · simp [him]
      rw [h1, h2]
      simp [abs_of_nonneg Real.pi_pos.le]
  · rw [Complex.arg_neg_eq_arg_sub_pi_of_im_pos him]
    simp [abs_of_nonneg Real.pi_pos.le]

/-- When `b` lies strictly between `a` and `c` (the rays `b → a` and
`b → c` point in opposite directions), `calculateAngle` returns
exactly 180. -/
lemma calculateAngle_opposite (a b c : RealLandmark) (s : ℝ) (hs : 0 < s)
    (hne : a.x ≠ b.x ∨ a.y ≠ b.y)
    (hx : c.x - b.x = -(s * (a.x - b.x))) (hy : c.y - b.y = -(s * (a.y - b.y))) :
    calculateAngle a b c = 180 := by
  have hz : (⟨a.x - b.x, a.y - b.y⟩ : ℂ) ≠ 0 := by
    intro h
    rw [Complex.ext_iff] at h
    simp only [Complex.zero_re, Complex.zero_im] at h
    rcases hne with h1 | h1
    · exact h1 (by have := h.1; simp at this; linarith)
    · exact h1 (by have := h.2; simp at this; linarith)
  have hw : (⟨c.x - b.x, c.y - b.y⟩ : ℂ) =
      (s : ℂ) * (-(⟨a.x - b.x, a.y - b.y⟩ : ℂ)) := by
    rw [Complex.ext_iff]
    constructor
    · simp [Complex.mul_re, hx]
    · simp [Complex.mul_im, hy]
  simp only [calculateAngle, atan2]
  rw [hw, Complex.arg_real_mul _ hs]
  have habs : |(Complex.arg (-(⟨a.x - b.x, a.y - b.y⟩ : ℂ)) -
      Complex.arg (⟨a.x - b.x, a.y - b.y⟩ : ℂ)) * 180 / Real.pi| = 180 := by
    rw [abs_div, abs_mul, abs_arg_neg_sub_arg _ hz, abs_of_pos Real.pi_pos,
      abs_of_nonneg (by norm_num : (0:ℝ) ≤ 180)]
    field_simp
  rw [habs]
  norm_num

/-- C9: for all landmarks, `calculateAngle a b c` lies in [0, 180], is
symmetric under swapping `a` and `c`, and returns exactly 180 when `b`
lies strictly between `a` and `c` on a common line. -/
theorem C9_angle_primitive (a b c : RealLandmark) :
    (0 ≤ calculateAngle a b c ∧ calculateAngle a b c ≤ 180) ∧
    calculateAngle a b c = calculateAngle c b a ∧
    (∀ s : ℝ, 0 < s → (a.x ≠ b.x ∨ a.y ≠ b.y) →
      c.x - b.x = -(s * (a.x - b.x)) → c.y - b.y = -(s * (a.y - b.y)) →
      calculateAngle a b c = 180) := by
  refine ⟨?_, ?_, fun s hs hne hx hy => calculateAngle_opposite a b c s hs hne hx hy⟩
  · simp only [calculateAngle, atan2]
    have hu1 := Complex.neg_pi_lt_arg (⟨c.x - b.x, c.y - b.y⟩ : ℂ)
    have hu2 := Complex.arg_le_pi (⟨c.x - b.x, c.y - b.y⟩ : ℂ)
    have hv1 := Complex.neg_pi_lt_arg (⟨a.x - b.x, a.y - b.y⟩ : ℂ)
    have hv2 := Complex.arg_le_pi (⟨a.x - b.x, a.y - b.y⟩ : ℂ)
    have hpi := Real.pi_pos
    set u := Complex.arg (⟨c.x - b.x, c.y - b.y⟩ : ℂ) with hu
    set v := Complex.arg (⟨a.x - b.x, a.y - b.y⟩ : ℂ) with hv
    have habs : |(u - v) * 180 / Real.pi| < 360 := by
      rw [abs_div, abs_mul, abs_of_pos hpi, div_lt_iff₀ hpi,
        abs_of_nonneg (by norm_num : (0:ℝ) ≤ 180)]
      have h2 : |u - v| < 2 * Real.pi := abs_lt.mpr ⟨by linarith, by linarith⟩
      linarith
    constructor
    · split_ifs with h
      · linarith
      · exact abs_nonneg _
    · split_ifs with h
      · linarith
      · linarith [not_lt.mp h]
  · simp only [calculateAngle, atan2]
    have hkey : ∀ u v : ℝ, |(u - v) * 180 / Real.pi| = |(v - u) * 180 / Real.pi| := by
      intro u v
      rw [show (u - v) * 180 / Real.pi = -((v - u) * 180 / Real.pi) by ring, abs_neg]
    rw [hkey]

/-- C9 witness: three colinear points with the vertex strictly between
the endpoints give exactly 180 degrees. -/
theorem C9_witness :
    calculateAngle (⟨0, 0, 0, 1⟩ : RealLandmark) ⟨1, 0, 0, 1⟩ ⟨2, 0, 0, 1⟩ = 180 :=
  (C9_angle_primitive ⟨0, 0, 0, 1⟩ ⟨1, 0, 0, 1⟩ ⟨2, 0, 0, 1⟩).2.2 1 (by norm_num)
    (by norm_num) (by norm_num) (by norm_num)

end PlankChallenge

namespace PlankChallenge

/-! ## The side-view arm check -/

lemma svAlignmentCheck_fst_le (lS lH lA : RealLandmark) (s : ℝ × List String) :
    (svAlignmentCheck lS lH lA s).1 ≤ s.1 := by
  simp only [svAlignmentCheck]; split_ifs <;> simp

lemma svLegCheck_fst_le (lH lK lA : RealLandmark) (s : ℝ × List String) :
    (svLegCheck lH lK lA s).1 ≤ s.1 := by
  simp only [svLegCheck]; split_ifs <;> simp

lemma svArmCheck_fst_le (lS lE lW : RealLandmark) (s : ℝ × List String) :
    (svArmCheck lS lE lW s).1 ≤ s.1 := by
  simp only [svArmCheck]; split_ifs <;> simp

lemma svElbowUnderCheck_fst_le (lS lE : RealLandmark) (s : ℝ × List String) :
    (svElbowUnderCheck lS lE s).1 ≤ s.1 := by
  simp only [svElbowUnderCheck]; split_ifs <;> simp

lemma svHeadCheck_fst_le (nose lS : RealLandmark) (s : ℝ × List String) :
    (svHeadCheck nose lS s).1 ≤ s.1 := by
  simp only [svHeadCheck]; split_ifs <;> simp

lemma svLevelCheck_fst_le (lS lH : RealLandmark) (s : ℝ × List String) :
    (svLevelCheck lS lH s).1 ≤ s.1 := by
  simp only [svLevelCheck]; split_ifs <;> simp

lemma svCenterCheck_fst_le (lS lH lA : RealLandmark) (s : ℝ × List String) :
    (svCenterCheck lS lH lA s).1 ≤ s.1 := by
  simp only [svCenterCheck]; split_ifs <;> simp

/-- When the shoulder-elbow-wrist angle is in neither band, the arm
check subtracts exactly 20. -/
lemma svArmCheck_fst_violated (lS lE lW : RealLandmark) (s : ℝ × List String)
    (h : 130 ≤ calculateAngle lS lE lW ∧ calculateAngle lS lE lW ≤ 145) :
    (svArmCheck lS lE lW s).1 = s.1 - 20 := by
  simp only [svArmCheck]
  rw [if_pos ⟨not_lt.mpr h.1, not_lt.mpr h.2⟩]

lemma svAlignmentCheck_arm_mem (lS lH lA : RealLandmark) (s : ℝ × List String) :
    ("Choose forearm or straight-arm plank" ∈ (svAlignmentCheck lS lH lA s).2 ↔
      "Choose forearm or straight-arm plank" ∈ s.2) := by
  simp only [svAlignmentCheck]; split_ifs <;> simp

lemma svLegCheck_arm_mem (lH lK lA : RealLandmark) (s : ℝ × List String) :
    ("Choose forearm or straight-arm plank" ∈ (svLegCheck lH lK lA s).2 ↔
      "Choose forearm or straight-arm plank" ∈ s.2) := by
  simp only [svLegCheck]; split_ifs <;> simp

lemma svElbowUnderCheck_arm_mem (lS lE : RealLandmark) (s : ℝ × List String) :
    ("Choose forearm or straight-arm plank" ∈ (svElbowUnderCheck lS lE s).2 ↔
      "Choose forearm or straight-arm plank" ∈ s.2) := by
  simp only [svElbowUnderCheck]; split_ifs <;> simp

lemma svHeadCheck_arm_mem (nose lS : RealLandmark) (s : ℝ × List String) :
    ("Choose forearm or straight-arm plank" ∈ (svHeadCheck nose lS s).2 ↔
      "Choose forearm or straight-arm plank" ∈ s.2) := by
  simp only [svHeadCheck]; split_ifs <;> simp

lemma svLevelCheck_arm_mem (lS lH : RealLandmark) (s : ℝ × List String) :
    ("Choose forearm or straight-arm plank" ∈ (svLevelCheck lS lH s).2 ↔
      "Choose forearm or straight-arm plank" ∈ s.2) := by
  simp only [svLevelCheck]; split_ifs <;> simp

lemma svCenterCheck_arm_mem (lS lH lA : RealLandmark) (s : ℝ × List String) :
    ("Choose forearm or straight-arm plank" ∈ (svCenterCheck lS lH lA s).2 ↔
      "Choose forearm or straight-arm plank" ∈ s.2) := by
  simp only [svCenterCheck]; split_ifs <;> simp

/-- The arm check appends its message exactly when the angle is in
neither band. -/
lemma svArmCheck_arm_mem (lS lE lW : RealLandmark) (s : ℝ × List String) :
    ("Choose forearm or straight-arm plank" ∈ (svArmCheck lS lE lW s).2 ↔
      ((130 ≤ calculateAngle lS lE lW ∧ calculateAngle lS lE lW ≤ 145) ∨
        "Choose forearm or straight-arm plank" ∈ s.2)) := by
  simp only [svArmCheck]
  split_ifs with h
  · have hc : 130 ≤ calculateAngle lS lE lW ∧ calculateAngle lS lE lW ≤ 145 :=
      ⟨not_lt.mp h.1, not_lt.mp h.2⟩
    simp [hc]
  · rw [not_and_or, not_not, not_not] at h
    have hc : ¬ (130 ≤ calculateAngle lS lE lW ∧ calculateAngle lS lE lW ≤ 145) := by
      rcases h with h | h
      · intro hh; linarith [hh.1]
      · intro hh; linarith [hh.2]
    simp [hc]

/-- C8 (amended: the side-view arm check has no 70° lower or 200°
upper bound): the side-view classifier's arm/elbow support check
evaluates the shoulder-elbow-wrist angle and flags a violation exactly
when the angle is in `[130, 145]` — that is, it accepts exactly the
two disjoint bands `angle < 130` (forearm plank) and `angle > 145`
(straight-arm plank) — and a violation costs exactly 20 confidence
points. -/
theorem C8_arm_bands (nose lS lE lW lH lK lA : RealLandmark) :
    ("Choose forearm or straight-arm plank" ∈ (sideViewChecks nose lS lE lW lH lK lA).2 ↔
      (130 ≤ calculateAngle lS lE lW ∧ calculateAngle lS lE lW ≤ 145)) ∧
    (sideViewChecks nose lS lE lW lH lK lA).1 ≤
      100 - (if 130 ≤ calculateAngle lS lE lW ∧ calculateAngle lS lE lW ≤ 145
        then (20 : ℝ) else 0) := by
  constructor
  · rw [sideViewChecks, svCenterCheck_arm_mem, svLevelCheck_arm_mem, svHeadCheck_arm_mem,
      svElbowUnderCheck_arm_mem, svArmCheck_arm_mem, svLegCheck_arm_mem,
      svAlignmentCheck_arm_mem]
    simp
  · have h1 := svAlignmentCheck_fst_le lS lH lA ((100 : ℝ), ([] : List String))
    have h2 := svLegCheck_fst_le lH lK lA
      (svAlignmentCheck lS lH lA (100, []))
    have h4 := svElbowUnderCheck_fst_le lS lE
      (svArmCheck lS lE lW
        (svLegCheck lH lK lA (svAlignmentCheck lS lH lA (100, []))))
    have h5 := svHeadCheck_fst_le nose lS
      (svElbowUnderCheck lS lE
        (svArmCheck lS lE lW
          (svLegCheck lH lK lA (svAlignmentCheck lS lH lA (100, [])))))
    have h6 := svLevelCheck_fst_le lS lH
      (svHeadCheck nose lS
        (svElbowUnderCheck lS lE
          (svArmCheck lS lE lW
            (svLegCheck lH lK lA (svAlignmentCheck lS lH lA (100, []))))))
    have h7 := svCenterCheck_fst_le lS lH lA
      (svLevelCheck lS lH
        (svHeadCheck nose lS
          (svElbowUnderCheck lS lE
            (svArmCheck lS lE lW
              (svLegCheck lH lK lA (svAlignmentCheck lS lH lA (100, [])))))))
    rw [sideViewChecks]
    split_ifs with hc
    · have h3 := svArmCheck_fst_violated lS lE lW
        (svLegCheck lH lK lA (svAlignmentCheck lS lH lA (100, []))) hc
      simp only at h1 h2 h4 h5 h6 h7
      linarith
    · have h3 := svArmCheck_fst_le lS lE lW
        (svLegCheck lH lK lA (svAlignmentCheck lS lH lA (100, [])))
      simp only at h1 h2 h4 h5 h6 h7
      linarith

end PlankChallenge

namespace PlankChallenge

/-! ## Concrete evaluation of the side-view classifier -/

lemma bodyAngle_sv : calculateAngle svS svH svA = 180 := by
  refine calculateAngle_opposite svS svH svA 1 one_pos ?_ ?_ ?_
  · left; norm_num [svS, svH]
  · norm_num [svS, svH, svA]
  · norm_num [svS, svH, svA]

lemma kneeAngle_sv : calculateAngle svH svK svA = 180 := by
  refine calculateAngle_opposite svH svK svA 1 one_pos ?_ ?_ ?_
  · left; norm_num [svH, svK]
  · norm_num [svH, svK, svA]
  · norm_num [svH, svK, svA]

lemma elbowAngle_sv : calculateAngle svS svE svW = 0 := by
  simp only [calculateAngle, atan2, svS, svE, svW]
  norm_num

lemma svAlignmentCheck_sv (s : ℝ × List String) : svAlignmentCheck svS svH svA s = s := by
  simp only [svAlignmentCheck, bodyAngle_sv]
  norm_num

lemma svLegCheck_sv (s : ℝ × List String) : svLegCheck svH svK svA s = s := by
  simp only [svLegCheck, kneeAngle_sv]
  norm_num

lemma svArmCheck_sv (s : ℝ × List String) : svArmCheck svS svE svW s = s := by
  simp only [svArmCheck, elbowAngle_sv]
  norm_num

lemma svElbowUnderCheck_sv (s : ℝ × List String) : svElbowUnderCheck svS svE s = s := by
  norm_num [svElbowUnderCheck, svS, svE]

lemma svHeadCheck_sv (s : ℝ × List String) : svHeadCheck svN svS s = s := by
  norm_num [svHeadCheck, svN, svS, abs_of_nonneg, abs_of_nonpos]

lemma svLevelCheck_sv (s : ℝ × List String) : svLevelCheck svS svH s = s := by
  norm_num [svLevelCheck, svS, svH]

lemma svCenterCheck_sv (s : ℝ × List String) : svCenterCheck svS svH svA s = s := by
  norm_num [svCenterCheck, svS, svH, svA]

lemma sideViewChecks_sv : sideViewChecks svN svS svE svW svH svK svA = (100, []) := by
  rw [sideViewChecks, svAlignmentCheck_sv, svLegCheck_sv, svArmCheck_sv,
    svElbowUnderCheck_sv, svHeadCheck_sv, svLevelCheck_sv, svCenterCheck_sv]

/-- C8 counterexample: in the side-view configuration with the wrist
at the shoulder the shoulder-elbow-wrist angle is 0 — in neither of
the claimed bands [70, 130] and [145, 200] — yet the arm check accepts
(no violation message, no deduction: the whole battery returns
confidence 100 with empty feedback). -/
theorem C8_counterexample :
    sideViewChecks svN svS svE svW svH svK svA = (100, []) ∧
    calculateAngle svS svE svW = 0 ∧
    ¬ ((70 ≤ calculateAngle svS svE svW ∧ calculateAngle svS svE svW ≤ 130) ∨
       (145 ≤ calculateAngle svS svE svW ∧ calculateAngle svS svE svW ≤ 200)) := by
  refine ⟨sideViewChecks_sv, elbowAngle_sv, ?_⟩
  rw [elbowAngle_sv]
  norm_num

end PlankChallenge
